import Mathlib

/-!
# Verification of the cfgbot message-formatting and posting pipeline

Shallow embedding of the `cfgbot` repository (a social-media bot that posts
control-flow-graph images of source functions to Bluesky and Mastodon).

Python strings are sequences of Unicode code points; they are modelled as
`List Char` (Python `len` is `List.length`, slicing is `List.take`/`List.drop`,
f-strings are `++`-chains). A Python string literal `"s"` is written `"s".data`.

Embedded modules:
* `cfgbot/message.py` — the length-budgeting message formatter
  (top-level definitions in namespace `Cfgbot`);
* the `GhidraPost`/`GithubPost` classes of `cfgbot/cfgbot.py`, which carry their
  own, different `into_bsky`/`into_mastodon` methods and are the ones used by
  `main` (namespace `Cfgbot.CfgbotPy`);
* `cfgbot/github.py` URL helpers;
* the post-generation pipeline and `main`'s posting phase of `cfgbot/cfgbot.py`,
  with external effects (random choice, subprocess SVG rendering, cairosvg,
  urllib quoting, network posting) abstracted as function parameters.

The `atproto` `client_utils.TextBuilder` is modelled by the text it accumulates:
`.text(s)` appends `s`, `.link(text, url)` appends `text`, and `build_text()`
returns the accumulated text, which is exactly its observable behaviour for
message length purposes.
-/

set_option maxRecDepth 100000

namespace Cfgbot

/-- Python strings modelled as lists of Unicode code points. -/
abbrev Str := List Char

/-- `BSKY_MAX_TEXT_LENGTH = 300` from `message.py` (and `cfgbot.py`). -/
def BSKY_MAX_TEXT_LENGTH : Nat := 300

/-- `MASTO_MAX_TEXT_LENGTH = 500` from `message.py`. -/
def MASTO_MAX_TEXT_LENGTH : Nat := 500

/-- `MASTODON_URL_LENGTH = 23` from `message.py`: Mastodon counts every URL as
23 characters. -/
def MASTODON_URL_LENGTH : Nat := 23

/-- `COLOR_SCHEMES = ["dark", "light"]` from `cfgbot.py`. -/
def COLOR_SCHEMES : List Str := ["dark".data, "light".data]

/-- `MINIMAL_NODE_COUNT = 7` from `cfgbot.py`. -/
def MINIMAL_NODE_COUNT : Nat := 7

/-- `BSKY_MAX_HEIGHT = 2000` from `cfgbot.py`. -/
def BSKY_MAX_HEIGHT : Nat := 2000

/-- `BSKY_MAX_WIDTH = 2000` from `cfgbot.py`. -/
def BSKY_MAX_WIDTH : Nat := 2000

/-- `Link` from `message.py` (an identical class exists in `cfgbot.py`). -/
structure Link where
  text : Str
  url : Str
deriving DecidableEq, Repr

/-- `GhidraPost`'s data fields (identical in `message.py` and `cfgbot.py`). -/
structure GhidraPost where
  project : Str
  version : Str
  filename : Str
  address : Str
  funcdef : Option Str
  svgs : List Link
deriving DecidableEq, Repr

/-- `GithubPost`'s data fields (identical in `message.py` and `cfgbot.py`). -/
structure GithubPost where
  project : Link
  code : Link
  funcdef : Str
  svgs : List Link
deriving DecidableEq, Repr

/-- `MessagePart = str | Link | list[Link]` from `message.py`. -/
inductive MessagePart where
  | str (text : Str)
  | link (l : Link)
  | linkList (links : List Link)
deriving DecidableEq, Repr

/-- Model of `atproto.client_utils.TextBuilder`: the accumulated message text. -/
structure TextBuilder where
  acc : Str
deriving DecidableEq, Repr

/-- `TextBuilder.text(s)` appends `s` to the message text. -/
def TextBuilder.text (b : TextBuilder) (s : Str) : TextBuilder :=
  ⟨b.acc ++ s⟩

/-- `TextBuilder.link(text, url)` appends `text` to the message text (the URL
goes into a facet, not into the text). -/
def TextBuilder.link (b : TextBuilder) (t _u : Str) : TextBuilder :=
  ⟨b.acc ++ t⟩

/-- `TextBuilder.build_text()` returns the accumulated message text. -/
def TextBuilder.build_text (b : TextBuilder) : Str :=
  b.acc

/-- `ghidra_message_template` from `message.py`. The `if post.funcdef:` test is
Python truthiness: the part is added only when `funcdef` is neither `None` nor
the empty string. -/
def ghidra_message_template (post : GhidraPost) : List MessagePart :=
  [MessagePart.str ("Project: ".data ++ post.project ++ " ".data ++ post.version),
   MessagePart.str "\n".data,
   MessagePart.str ("File: ".data ++ post.filename),
   MessagePart.str "\n".data,
   MessagePart.str ("Address: ".data ++ post.address),
   MessagePart.str "\n".data,
   MessagePart.str "\n".data]
  ++ (match post.funcdef with
      | some f => if f = [] then [] else [MessagePart.str (f ++ "\n\n".data)]
      | none => [])
  ++ [MessagePart.str "SVG: ".data, MessagePart.linkList post.svgs]

/-- `github_message_template` from `message.py`. -/
def github_message_template (post : GithubPost) : List MessagePart :=
  [MessagePart.str "Project: ".data,
   MessagePart.link post.project,
   MessagePart.str "\n".data,
   MessagePart.str "File: ".data,
   MessagePart.link post.code,
   MessagePart.str "\n\n".data,
   MessagePart.str (post.funcdef ++ "\n\n".data),
   MessagePart.str "SVG: ".data,
   MessagePart.linkList post.svgs]

/-- `masto_render_list` from `message.py`:
`"\n" + "\n".join(f"  {link.text} {link.url}" for link in links)`. -/
def masto_render_list (links : List Link) : Str :=
  "\n".data ++
    List.intercalate "\n".data
      (links.map (fun link => "  ".data ++ link.text ++ " ".data ++ link.url))

/-- `masto_link_list_length` from `message.py`: the length of the rendered list
with every URL replaced by a 23-character placeholder (`"x" * MASTODON_URL_LENGTH`). -/
def masto_link_list_length (links : List Link) : Nat :=
  (masto_render_list
    (links.map (fun link =>
      { text := link.text, url := List.replicate MASTODON_URL_LENGTH 'x' }))).length

/-- The loop body of `bsky_render_list` from `message.py`: a `", "` separator
before every link except the first (index 0), then the link itself. -/
def bsky_render_list_step (b : TextBuilder) (il : Nat × Link) : TextBuilder :=
  (if il.1 > 0 then b.text ", ".data else b).link il.2.text il.2.url

/-- `bsky_render_list` from `message.py`: renders `links` into `builder`,
comma-separating consecutive links. -/
def bsky_render_list (builder : TextBuilder) (links : List Link) : TextBuilder :=
  links.enum.foldl bsky_render_list_step builder

/-- One arm of the `match` in `masto_get_message_length` from `message.py`:
a string counts as its length, a link as text length + 23 (URL) + 1 (space),
a link list via `masto_link_list_length`. -/
def masto_part_length (part : MessagePart) : Nat :=
  match part with
  | .str text => text.length
  | .link l => l.text.length + MASTODON_URL_LENGTH + 1
  | .linkList links => masto_link_list_length links

/-- `masto_get_message_length` from `message.py`: total Mastodon-counted length
of the message the template produces for `post`. -/
def masto_get_message_length {P : Type} (template : P → List MessagePart)
    (post : P) : Nat :=
  (template post).foldl (fun total_length part => total_length + masto_part_length part) 0

/-- One arm of the `match` in `bsky_get_message_length` from `message.py`:
a link counts only its text; a link list counts the text a fresh
`bsky_render_list` would build. -/
def bsky_part_length (part : MessagePart) : Nat :=
  match part with
  | .str text => text.length
  | .link l => l.text.length
  | .linkList links => (bsky_render_list ⟨[]⟩ links).build_text.length

/-- `bsky_get_message_length` from `message.py`. -/
def bsky_get_message_length {P : Type} (template : P → List MessagePart)
    (post : P) : Nat :=
  (template post).foldl (fun total_length part => total_length + bsky_part_length part) 0

/-- One arm of the `match` in `masto_render` from `message.py`. -/
def masto_render_part (part : MessagePart) : Str :=
  match part with
  | .str text => text
  | .link l => l.text ++ " ".data ++ l.url
  | .linkList links => masto_render_list links

/-- `masto_render` from `message.py`: `"".join` of the rendered parts. -/
def masto_render {P : Type} (template : P → List MessagePart) (post : P) : Str :=
  List.flatten ((template post).map masto_render_part)

/-- One arm of the `match` in `bsky_render` from `message.py`. -/
def bsky_render_part (builder : TextBuilder) (part : MessagePart) : TextBuilder :=
  match part with
  | .str text => builder.text text
  | .link l => builder.link l.text l.url
  | .linkList links => bsky_render_list builder links

/-- `bsky_render` from `message.py`: folds the parts into a fresh `TextBuilder`. -/
def bsky_render {P : Type} (template : P → List MessagePart) (post : P) : TextBuilder :=
  (template post).foldl bsky_render_part ⟨[]⟩

/-- `GhidraPost.abbreviated` from `message.py`. Raising `ValueError` is
modelled as `Except.error`. The slice `funcdef[:-excess_length - 3]` keeps all
but the last `excess_length + 3` characters (empty when the slice index reaches
past the start); both call sites pass a strictly positive `excess_length`. -/
def GhidraPost.abbreviated (post : GhidraPost) (excess_length : Nat) :
    Except Str GhidraPost :=
  match post.funcdef with
  | none => .error "Post too long regardless of funcdef length".data
  | some f =>
    if excess_length > f.length then
      .error "Post too long regardless of funcdef length".data
    else
      .ok { post with
              funcdef := some (f.take (f.length - (excess_length + 3)) ++ "...".data) }

/-- `GithubPost.abbreviated` from `message.py` (`funcdef` is a plain `str`
there, so its `is None` test is never true). -/
def GithubPost.abbreviated (post : GithubPost) (excess_length : Nat) :
    Except Str GithubPost :=
  if excess_length > post.funcdef.length then
    .error "Post too long regardless of funcdef length".data
  else
    .ok { post with
            funcdef :=
              post.funcdef.take (post.funcdef.length - (excess_length + 3)) ++ "...".data }

/-- `GhidraPost.into_bsky` from `message.py`. Note the budget is computed with
`masto_get_message_length`, compared against `BSKY_MAX_TEXT_LENGTH`. -/
def GhidraPost.into_bsky (post : GhidraPost) : Except Str TextBuilder :=
  let length := masto_get_message_length ghidra_message_template post
  if length ≤ BSKY_MAX_TEXT_LENGTH then
    .ok (bsky_render ghidra_message_template post)
  else
    (post.abbreviated (length - BSKY_MAX_TEXT_LENGTH)).map
      (fun p => bsky_render ghidra_message_template p)

/-- `GhidraPost.into_mastodon` from `message.py`. -/
def GhidraPost.into_mastodon (post : GhidraPost) : Except Str Str :=
  let length := masto_get_message_length ghidra_message_template post
  if length ≤ MASTO_MAX_TEXT_LENGTH then
    .ok (masto_render ghidra_message_template post)
  else
    (post.abbreviated (length - MASTO_MAX_TEXT_LENGTH)).map
      (fun p => masto_render ghidra_message_template p)

/-- `GithubPost.into_bsky` from `message.py`. -/
def GithubPost.into_bsky (post : GithubPost) : Except Str TextBuilder :=
  let length := masto_get_message_length github_message_template post
  if length ≤ BSKY_MAX_TEXT_LENGTH then
    .ok (bsky_render github_message_template post)
  else
    (post.abbreviated (length - BSKY_MAX_TEXT_LENGTH)).map
      (fun p => bsky_render github_message_template p)

/-- `GithubPost.into_mastodon` from `message.py`. -/
def GithubPost.into_mastodon (post : GithubPost) : Except Str Str :=
  let length := masto_get_message_length github_message_template post
  if length ≤ MASTO_MAX_TEXT_LENGTH then
    .ok (masto_render github_message_template post)
  else
    (post.abbreviated (length - MASTO_MAX_TEXT_LENGTH)).map
      (fun p => masto_render github_message_template p)

namespace CfgbotPy

/-- Python `f"{x}"` applied to a `str | None` value: `None` renders as `"None"`. -/
def py_format_opt (s : Option Str) : Str :=
  match s with
  | none => "None".data
  | some s => s

/-- `GhidraPost._format_for_bluesky` from `cfgbot.py` (the duplicate post class
defined there, the one `main` posts with). The trailing loop over `post.svgs`
is the same enumerated comma-separating loop as `bsky_render_list`. -/
def ghidra_format_for_bluesky (post : GhidraPost) : TextBuilder :=
  let text :=
    (((((((TextBuilder.mk []).text
      ("Project: ".data ++ post.project ++ " ".data ++ post.version)).text
      "\n".data).text
      ("File: ".data ++ post.filename)).text
      "\n".data).text
      ("Address: ".data ++ post.address)).text
      "\n".data).text
      "\n".data
  let text :=
    match post.funcdef with
    | some f => if f = [] then text else ((text.text f).text "\n".data).text "\n".data
    | none => text
  let text := text.text "SVG: ".data
  post.svgs.enum.foldl bsky_render_list_step text

/-- `GhidraPost.into_bsky` from `cfgbot.py`: builds the post text, and when it
is longer than `BSKY_MAX_TEXT_LENGTH` shortens `funcdef` by the excess
(raising `ValueError`, modelled as `Except.error`, when `funcdef` is `None` or
shorter than the excess). -/
def GhidraPost_into_bsky (post : GhidraPost) : Except Str TextBuilder :=
  let builder := ghidra_format_for_bluesky post
  let post_text := builder.build_text
  if post_text.length ≤ BSKY_MAX_TEXT_LENGTH then
    .ok builder
  else
    let to_remove := post_text.length - BSKY_MAX_TEXT_LENGTH
    match post.funcdef with
    | none => .error "Post too long regardless of funcdef length".data
    | some f =>
      if to_remove > f.length then
        .error "Post too long regardless of funcdef length".data
      else
        let funcdef := f.take (f.length - (to_remove + 3)) ++ "...".data
        .ok (ghidra_format_for_bluesky { post with funcdef := some funcdef })

/-- `GhidraPost.into_mastodon` from `cfgbot.py`: a plain f-string, with no
length check, no trimming and no exception. -/
def GhidraPost_into_mastodon (post : GhidraPost) : Str :=
  let svg :=
    List.intercalate "\n".data
      (post.svgs.map (fun s => "  ".data ++ s.text ++ " ".data ++ s.url))
  "Project: ".data ++ post.project ++ " ".data ++ post.version ++
    "\nFile: ".data ++ post.filename ++
    "\nAddress: ".data ++ post.address ++
    "\n\n".data ++ py_format_opt post.funcdef ++
    "\n\nSVG:\n".data ++ svg

/-- `GithubPost._format_for_bluesky` from `cfgbot.py`. -/
def github_format_for_bluesky (post : GithubPost) : TextBuilder :=
  let text :=
    ((((((TextBuilder.mk []).text
      "Project: ".data).link post.project.text post.project.url).text
      "\nFile: ".data).link post.code.text post.code.url).text
      ("\n\n".data ++ post.funcdef ++ "\n\n".data)).text
      "SVG: ".data
  post.svgs.enum.foldl bsky_render_list_step text

/-- `GithubPost.into_bsky` from `cfgbot.py`. -/
def GithubPost_into_bsky (post : GithubPost) : Except Str TextBuilder :=
  let builder := github_format_for_bluesky post
  let post_text := builder.build_text
  if post_text.length ≤ BSKY_MAX_TEXT_LENGTH then
    .ok builder
  else
    let to_remove := post_text.length - BSKY_MAX_TEXT_LENGTH
    if to_remove > post.funcdef.length then
      .error "Post too long regardless of funcdef length".data
    else
      let funcdef := post.funcdef.take (post.funcdef.length - (to_remove + 3)) ++ "...".data
      .ok (github_format_for_bluesky { post with funcdef := funcdef })

/-- `GithubPost.into_mastodon` from `cfgbot.py`: a plain f-string with no
length check. -/
def GithubPost_into_mastodon (post : GithubPost) : Str :=
  let svg :=
    List.intercalate "\n".data
      (post.svgs.map (fun s => "  ".data ++ s.text ++ " ".data ++ s.url))
  "Project: ".data ++ post.project.text ++ " ".data ++ post.project.url ++
    "\nFile: ".data ++ post.code.text ++ " ".data ++ post.code.url ++
    "\n\n".data ++ post.funcdef ++
    "\n\nSVG:\n".data ++ svg

end CfgbotPy

/-- `get_code_url` from `github.py`. -/
def get_code_url (project ref filename : Str) (line : Nat) : Str :=
  "https://github.com/".data ++ project ++ "/blob/".data ++ ref ++ "/".data ++
    filename ++ "#L".data ++ (Nat.repr line).data

/-- `get_raw_url` from `github.py`. -/
def get_raw_url (project ref filename : Str) : Str :=
  "https://raw.githubusercontent.com/".data ++ project ++ "/".data ++ ref ++
    "/".data ++ filename

/-- `get_project_url` from `github.py`. -/
def get_project_url (project : Str) : Str :=
  "https://github.com/".data ++ project

/-- `GhidraFunction` from `index.py` (the fields the pipeline uses). -/
structure GhidraFunction where
  address : Str
  name : Option Str
  node_count : Nat
deriving DecidableEq, Repr

/-- `GhidraIndex` from `index.py` (the fields the pipeline uses; `version` is
`str | None` in the source and is modelled in its present case, the only one a
well-formed index provides). -/
structure GhidraIndex where
  project : Str
  filename : Str
  version : Str
  functions : List GhidraFunction
deriving DecidableEq, Repr

/-- `Position` from `index.py`. -/
structure Position where
  row : Nat
  column : Nat
deriving DecidableEq, Repr

/-- `GithubFunction` from `index.py`. -/
structure GithubFunction where
  funcdef : Str
  node_count : Nat
  filename : Str
  start_position : Position
deriving DecidableEq, Repr

/-- `GithubIndex` from `index.py`. -/
structure GithubIndex where
  project : Str
  ref : Str
  functions : List GithubFunction
deriving DecidableEq, Repr

/-- `IndexLocator` from `cfgbot.py`; paths modelled as strings. -/
structure IndexLocator where
  path : Str
  repo_base : Str
  raw_url_base : Str
deriving DecidableEq, Repr

/-- `Size` from `cfgbot.py`. -/
structure Size where
  width : Nat
  height : Nat
deriving DecidableEq, Repr

/-- Opaque byte strings (SVG and PNG payloads produced by external tools). -/
abbrev Bytes := List UInt8

/-- `Image` from `cfgbot.py`. -/
structure Image where
  image_bytes : Bytes
  width : Nat
  height : Nat
  alt : Str
deriving DecidableEq, Repr

/-- External-effect parameters of the post-generation pipeline: the `bun`
subprocess renderers (`render_graph_svg`, `render_function_svg`), the
`xml`/`cairosvg` calls inside `Image.from_svg`, and `urllib.parse.quote_plus`.
These are third-party executables and libraries, not code of this repository,
so they are abstracted as function parameters. -/
structure RenderOracles where
  render_graph_svg : Str → Str → Bytes
  render_function_svg : Str → Str → GithubFunction → Bytes
  get_svg_size : Bytes → Size
  svg2png_with_output_height : Bytes → Nat → Bytes
  svg2png_with_output_width : Bytes → Nat → Bytes
  quote_plus : Str → Str

/-- `Image.from_svg` from `cfgbot.py`: convert the SVG to PNG (bounded by
height when portrait, by width otherwise) and record size and alt text. -/
def Image.from_svg (o : RenderOracles) (svg : Bytes) (alt : Str) : Image :=
  let svg_size := o.get_svg_size svg
  let png :=
    if svg_size.height > svg_size.width then
      o.svg2png_with_output_height svg BSKY_MAX_HEIGHT
    else
      o.svg2png_with_output_width svg BSKY_MAX_WIDTH
  { image_bytes := png, height := svg_size.height, width := svg_size.width, alt := alt }

/-- `pathlib`'s `Path.parent` for the POSIX-style paths the bot uses: all
components but the last. -/
def path_parent (p : Str) : Str :=
  List.intercalate "/".data ((p.splitOn '/').dropLast)

/-- `pathlib`'s `Path.name`: the last path component. -/
def path_name (p : Str) : Str :=
  (p.splitOn '/').getLastD []

/-- `graph_path.relative_to(index_locator.repo_base)` for a `graph_path` lying
under `repo_base`: drop the base and its trailing separator. -/
def relative_to (p base : Str) : Str :=
  p.drop (base.length + 1)

/-- Python `str.replace("\\", "/")`: the pattern is a single character, so the
replacement is a character map. -/
def py_replace_backslash (s : Str) : Str :=
  s.map (fun c => if c = '\\' then '/' else c)

/-- The image alt text f-string used by both generators in `cfgbot.py`. -/
def cfg_alt (colors : Str) : Str :=
  "A control-flow-graph of the function described in the post text using a ".data ++
    colors ++ " color scheme.".data

/-- `render_github_url` from `cfgbot.py` (`urllib.parse.quote_plus` abstracted). -/
def render_github_url (quote_plus : Str → Str) (github_link colors : Str) : Str :=
  "https://tmr232.github.io/function-graph-overview/render/?github=".data ++
    quote_plus github_link ++ "&colors=".data ++ colors

/-- `render_graph_url` from `cfgbot.py` (`urllib.parse.quote_plus` abstracted). -/
def render_graph_url (quote_plus : Str → Str) (ghidra_link colors : Str) : Str :=
  "https://tmr232.github.io/function-graph-overview/render/?graph=".data ++
    quote_plus ghidra_link ++ "&colors=".data ++ colors

/-- `generate_ghidra_post` from `cfgbot.py`. `random.choice` over the
interesting functions is abstracted as the `choice` parameter; the
image-accumulating `for colors in colors_schemes` loop appends exactly one
`Image.from_svg` result per scheme, i.e. it is a `List.map`. -/
def generate_ghidra_post (o : RenderOracles)
    (choice : List GhidraFunction → GhidraFunction)
    (index_locator : IndexLocator) (index : GhidraIndex)
    (colors_schemes : List Str) : GhidraPost × List Image :=
  let interesting_functions :=
    index.functions.filter (fun function => function.node_count ≥ MINIMAL_NODE_COUNT)
  let function := choice interesting_functions
  let index_dir := path_parent index_locator.path
  let graph_path := index_dir ++ "/".data ++ function.address ++ ".json".data
  let images := colors_schemes.map (fun colors =>
    Image.from_svg o (o.render_graph_svg graph_path colors) (cfg_alt colors))
  let graph_url :=
    py_replace_backslash
      (index_locator.raw_url_base ++ "/".data ++
        relative_to graph_path index_locator.repo_base)
  ({ project := index.project,
     version := index.version,
     filename := index.filename,
     address := function.address,
     funcdef := function.name,
     svgs := colors_schemes.map (fun colors =>
       { text := colors, url := render_graph_url o.quote_plus graph_url colors }) },
   images)

/-- `generate_github_post` from `cfgbot.py`. `random.choice` is abstracted as
`choice`, `fetch_github_function` (an HTTP GET with retries) as `fetch`, and
the temporary directory name as `tempdir`; the fetched code is written to
`codefile`, which the external renderer reads. -/
def generate_github_post (o : RenderOracles)
    (choice : List GithubFunction → GithubFunction)
    (fetch : GithubFunction → GithubIndex → Str)
    (tempdir : Str)
    (index : GithubIndex) (colors_schemes : List Str) : GithubPost × List Image :=
  let interesting_functions :=
    index.functions.filter (fun function => function.node_count ≥ MINIMAL_NODE_COUNT)
  let function := choice interesting_functions
  let _code := fetch function index
  let codefile := tempdir ++ "/".data ++ path_name function.filename
  let images := colors_schemes.map (fun colors =>
    Image.from_svg o (o.render_function_svg codefile colors function) (cfg_alt colors))
  let line := function.start_position.row + 1
  let code_url := get_code_url index.project index.ref function.filename line
  let post : GithubPost :=
    { project := { text := index.project, url := get_project_url index.project },
      code := { text := function.filename ++ ":".data ++ (Nat.repr line).data,
                url := code_url },
      funcdef := function.funcdef,
      svgs := colors_schemes.map (fun colors =>
        { text := colors, url := render_github_url o.quote_plus code_url colors }) }
  (post, images)

/-- Whether an `Except` value is an error (a raised, caught exception). -/
def is_error {E A : Type} : Except E A → Bool
  | .error _ => true
  | .ok _ => false

/-- The two posting targets of `main` in `cfgbot.py`. -/
inductive Platform where
  | bluesky
  | mastodon
deriving DecidableEq, Repr

/-- The posting phase of `main` from `cfgbot.py`. Each of `post_to_bluesky`
and `post_to_mastodon` runs inside its own `try`/`except Exception` block that
catches any failure, logs it and sets `failed = True`; afterwards `main`
raises `RuntimeError` when `failed` is set. The network outcomes of the two
calls are abstracted as `Except` values; the result lists the platforms
attempted, in program order, together with `main`'s own outcome. -/
def main_posting_phase {E : Type}
    (post_to_bluesky_outcome post_to_mastodon_outcome : Except E Unit) :
    List Platform × Except Str Unit :=
  let failed := false
  let attempted : List Platform := []
  let attempted := attempted ++ [Platform.bluesky]
  let failed := failed || is_error post_to_bluesky_outcome
  let attempted := attempted ++ [Platform.mastodon]
  let failed := failed || is_error post_to_mastodon_outcome
  (attempted,
   if failed then .error "Failed posting to at least one platform".data else .ok ())

/-- `random.choice(interesting_functions)` in `generate_ghidra_post`,
abstracted over the choice made. -/
def ghidra_chosen_function (choice : List GhidraFunction → GhidraFunction)
    (index : GhidraIndex) : GhidraFunction :=
  choice (index.functions.filter (fun function => function.node_count ≥ MINIMAL_NODE_COUNT))

/-- `index_dir / f"{function.address}.json"` in `generate_ghidra_post`. -/
def ghidra_graph_path (index_locator : IndexLocator) (function : GhidraFunction) : Str :=
  path_parent index_locator.path ++ "/".data ++ function.address ++ ".json".data

/-- `random.choice(interesting_functions)` in `generate_github_post`,
abstracted over the choice made. -/
def github_chosen_function (choice : List GithubFunction → GithubFunction)
    (index : GithubIndex) : GithubFunction :=
  choice (index.functions.filter (fun function => function.node_count ≥ MINIMAL_NODE_COUNT))

/-- `Path(tempdir, Path(function.filename).name)` in `generate_github_post`. -/
def github_codefile (tempdir : Str) (function : GithubFunction) : Str :=
  tempdir ++ "/".data ++ path_name function.filename

/-- A `GhidraPost` whose 550-character `funcdef` makes the message far longer
than any platform limit; `svgs` is empty so the rendered text contains no URL
and its Mastodon-counted length is its plain length. -/
def ghidra_long_funcdef_post : GhidraPost :=
  { project := "p".data, version := "v".data, filename := "f".data,
    address := "a".data, funcdef := some (List.replicate 550 'a'), svgs := [] }

/-- A `GhidraPost` sitting exactly in the off-by-three band of `abbreviated`
for the Mastodon limit: its Mastodon-counted length is 504, so the excess (4)
equals the `funcdef` length and trimming replaces `funcdef` by `"..."`. -/
def ghidra_masto_edge_post : GhidraPost :=
  { project := "p".data, version := "v".data, filename := List.replicate 460 'f',
    address := "a".data, funcdef := some "abcd".data, svgs := [] }

/-- A `GhidraPost` in the off-by-three band of `abbreviated` for the Bluesky
limit of `message.py`'s `into_bsky` (Mastodon-counted length 304, excess 4 =
`funcdef` length). -/
def ghidra_bsky_edge_post : GhidraPost :=
  { project := "p".data, version := "v".data, filename := List.replicate 260 'f',
    address := "a".data, funcdef := some "abcd".data, svgs := [] }

/-- A `GithubPost` in the off-by-three band of `cfgbot.py`'s
`GithubPost.into_bsky`: its built text has length 303, the excess (3) equals
the `funcdef` length, and trimming replaces `funcdef` by `"..."` of the same
length. -/
def github_bsky_edge_post : GithubPost :=
  { project := { text := List.replicate 274 'p', url := "u".data },
    code := { text := "c".data, url := "u".data },
    funcdef := "abc".data, svgs := [] }

/-- A `GhidraPost` that `message.py`'s `into_bsky` trims (Mastodon-counted
length 371 > 300) although its trimmed Bluesky text ends up well below the
300-character limit. -/
def ghidra_bsky_overtrim_post : GhidraPost :=
  { project := "p".data, version := "v".data, filename := "f".data,
    address := "a".data, funcdef := some (List.replicate 300 'a'),
    svgs := [{ text := "dark".data, url := "u".data }] }

/-- A `GithubPost` with a 600-character `funcdef`, long enough that both
`into_bsky` and `into_mastodon` of `message.py` have to trim it. -/
def github_long_funcdef_post : GithubPost :=
  { project := { text := "p".data, url := "u".data },
    code := { text := "c".data, url := "u".data },
    funcdef := List.replicate 600 'g', svgs := [] }

/-- A post with short link URLs, for exercising URL-independence of the
Mastodon length calculator. -/
def url_variant_ghidra_post_a : GhidraPost :=
  { project := "p".data, version := "v".data, filename := "f".data,
    address := "a".data, funcdef := some "fn".data,
    svgs := [{ text := "dark".data, url := "u".data },
             { text := "light".data, url := "uu".data }] }

/-- The same post as `url_variant_ghidra_post_a` except for much longer link
URLs. -/
def url_variant_ghidra_post_b : GhidraPost :=
  { project := "p".data, version := "v".data, filename := "f".data,
    address := "a".data, funcdef := some "fn".data,
    svgs := [{ text := "dark".data,
               url := "https://example.com/a/very/long/rendering/url?colors=dark".data },
             { text := "light".data,
               url := "https://example.com/a/very/long/rendering/url?colors=light".data }] }

/-- Oracles with trivial behaviour, for exercising the generation pipeline. -/
def trivial_oracles : RenderOracles :=
  { render_graph_svg := fun _ _ => [],
    render_function_svg := fun _ _ _ => [],
    get_svg_size := fun _ => { width := 4, height := 3 },
    svg2png_with_output_height := fun svg _ => svg,
    svg2png_with_output_width := fun svg _ => svg,
    quote_plus := fun s => s }

/-- A sample interesting Ghidra function (node count above the threshold). -/
def sample_ghidra_function : GhidraFunction :=
  { address := "c0de".data, name := some "fn".data, node_count := 9 }

/-- A sample one-function Ghidra index. -/
def sample_ghidra_index : GhidraIndex :=
  { project := "proj".data, filename := "bin".data, version := "1".data,
    functions := [sample_ghidra_function] }

/-- A sample index locator. -/
def sample_locator : IndexLocator :=
  { path := "root/exports/index.json".data, repo_base := "root".data,
    raw_url_base := "https://raw".data }

/-- A sample interesting GitHub function. -/
def sample_github_function : GithubFunction :=
  { funcdef := "def f():".data, node_count := 8, filename := "src/app.py".data,
    start_position := { row := 41, column := 0 } }

/-- A sample one-function GitHub index. -/
def sample_github_index : GithubIndex :=
  { project := "user/repo".data, ref := "main".data,
    functions := [sample_github_function] }

/-- A deterministic stand-in for `random.choice` over Ghidra functions. -/
def head_ghidra_choice : List GhidraFunction → GhidraFunction :=
  fun l => l.headD sample_ghidra_function

/-- A deterministic stand-in for `random.choice` over GitHub functions. -/
def head_github_choice : List GithubFunction → GithubFunction :=
  fun l => l.headD sample_github_function

/-- A stand-in for `fetch_github_function`. -/
def sample_fetch : GithubFunction → GithubIndex → Str :=
  fun _ _ => "code".data

/-! ## Lemmas about the Bluesky renderer and length calculator -/

/-- What one step of the `bsky_render_list` loop appends to the builder text. -/
def bsky_list_piece (il : Nat × Link) : Str :=
  (if il.1 > 0 then ", ".data else []) ++ il.2.text

theorem bsky_render_list_step_acc (b : TextBuilder) (il : Nat × Link) :
    (bsky_render_list_step b il).acc = b.acc ++ bsky_list_piece il := by
  unfold bsky_render_list_step bsky_list_piece TextBuilder.text TextBuilder.link
  split <;> simp

theorem foldl_bsky_render_list_step_acc (l : List (Nat × Link)) (b : TextBuilder) :
    (l.foldl bsky_render_list_step b).acc = b.acc ++ (l.map bsky_list_piece).flatten := by
  induction l generalizing b with
  | nil => simp
  | cons il l ih =>
    simp only [List.foldl_cons, List.map_cons, List.flatten_cons]
    rw [ih, bsky_render_list_step_acc, List.append_assoc]

theorem bsky_render_list_acc (b : TextBuilder) (links : List Link) :
    (bsky_render_list b links).acc = b.acc ++ (bsky_render_list ⟨[]⟩ links).acc := by
  unfold bsky_render_list
  rw [foldl_bsky_render_list_step_acc, foldl_bsky_render_list_step_acc]
  simp

theorem bsky_render_part_acc_length (b : TextBuilder) (part : MessagePart) :
    (bsky_render_part b part).acc.length = b.acc.length + bsky_part_length part := by
  cases part with
  | str text => simp [bsky_render_part, bsky_part_length, TextBuilder.text]
  | link l => simp [bsky_render_part, bsky_part_length, TextBuilder.link]
  | linkList links =>
    simp only [bsky_render_part, bsky_part_length, TextBuilder.build_text]
    rw [bsky_render_list_acc]
    simp

theorem foldl_bsky_render_part_length (parts : List MessagePart) (b : TextBuilder) :
    ((parts.foldl bsky_render_part b).acc.length) =
      b.acc.length + (parts.map bsky_part_length).sum := by
  induction parts generalizing b with
  | nil => simp
  | cons part parts ih =>
    simp only [List.foldl_cons, List.map_cons, List.sum_cons]
    rw [ih, bsky_render_part_acc_length]
    omega

theorem foldl_add_length (parts : List MessagePart) (f : MessagePart → Nat) (n : Nat) :
    parts.foldl (fun total_length part => total_length + f part) n =
      n + (parts.map f).sum := by
  induction parts generalizing n with
  | nil => simp
  | cons part parts ih =>
    simp only [List.foldl_cons, List.map_cons, List.sum_cons]
    rw [ih]
    omega

/-! ## Lemmas about the Mastodon length calculator -/

theorem masto_link_list_length_eq_of_texts (l1 l2 : List Link)
    (h : l1.map Link.text = l2.map Link.text) :
    masto_link_list_length l1 = masto_link_list_length l2 := by
  unfold masto_link_list_length
  have hmap : l1.map (fun link =>
        ({ text := link.text, url := List.replicate MASTODON_URL_LENGTH 'x' } : Link)) =
      l2.map (fun link =>
        ({ text := link.text, url := List.replicate MASTODON_URL_LENGTH 'x' } : Link)) := by
    have h1 := congrArg
      (List.map (fun t => ({ text := t, url := List.replicate MASTODON_URL_LENGTH 'x' } : Link))) h
    simpa [List.map_map, Function.comp] using h1
  rw [hmap]

theorem ghidra_masto_len_funcdef (p : GhidraPost) (f : Str)
    (hp : p.funcdef = some f) (hf : f ≠ []) :
    masto_get_message_length ghidra_message_template p =
      masto_get_message_length ghidra_message_template { p with funcdef := none } +
        f.length + 2 := by
  cases p
  simp only at hp
  subst hp
  unfold masto_get_message_length ghidra_message_template
  rw [foldl_add_length, foldl_add_length]
  simp [masto_part_length, hf]
  omega

theorem github_masto_len_funcdef (p : GithubPost) :
    masto_get_message_length github_message_template p =
      masto_get_message_length github_message_template { p with funcdef := [] } +
        p.funcdef.length := by
  cases p
  unfold masto_get_message_length github_message_template
  rw [foldl_add_length, foldl_add_length]
  simp [masto_part_length]
  omega

/-- Trimming arithmetic for `GhidraPost.abbreviated`: when the excess leaves
room for the three-dot ellipsis (`excess + 3 ≤ len(funcdef)`), the abbreviated
post's Mastodon-counted length drops by exactly `excess`. -/
theorem ghidra_abbreviated_metric (p q : GhidraPost) (f : Str) (e : Nat)
    (hp : p.funcdef = some f) (hfit : e + 3 ≤ f.length)
    (habb : p.abbreviated e = .ok q) :
    masto_get_message_length ghidra_message_template q =
      masto_get_message_length ghidra_message_template p - e := by
  have hq : q = { p with funcdef := some (f.take (f.length - (e + 3)) ++ "...".data) } := by
    unfold GhidraPost.abbreviated at habb
    rw [hp] at habb
    have habb' :
        (if e > f.length then
          (Except.error "Post too long regardless of funcdef length".data : Except Str GhidraPost)
        else
          Except.ok { p with funcdef := some (f.take (f.length - (e + 3)) ++ "...".data) }) =
        Except.ok q := habb
    rw [if_neg (by omega)] at habb'
    injection habb' with h
    exact h.symm
  have hfne : f ≠ [] := by
    intro h
    rw [h] at hfit
    simp at hfit
  have hLp := ghidra_masto_len_funcdef p f hp hfne
  have hq' : q.funcdef = some (f.take (f.length - (e + 3)) ++ "...".data) := by
    rw [hq]
  have hf'ne : f.take (f.length - (e + 3)) ++ "...".data ≠ [] := by
    simp
  have hLq := ghidra_masto_len_funcdef q _ hq' hf'ne
  have hbase : ({ q with funcdef := none } : GhidraPost) =
      ({ p with funcdef := none } : GhidraPost) := by
    rw [hq]
  rw [hbase] at hLq
  have hf'len : (f.take (f.length - (e + 3)) ++ "...".data).length = f.length - e := by
    simp [List.length_take]
    omega
  omega

/-- Trimming arithmetic for `GithubPost.abbreviated`, as for `GhidraPost`. -/
theorem github_abbreviated_metric (p q : GithubPost) (e : Nat)
    (hfit : e + 3 ≤ p.funcdef.length)
    (habb : p.abbreviated e = .ok q) :
    masto_get_message_length github_message_template q =
      masto_get_message_length github_message_template p - e := by
  have hq : q = { p with
      funcdef := p.funcdef.take (p.funcdef.length - (e + 3)) ++ "...".data } := by
    unfold GithubPost.abbreviated at habb
    rw [if_neg (by omega)] at habb
    injection habb with h
    exact h.symm
  have hLp := github_masto_len_funcdef p
  have hLq := github_masto_len_funcdef q
  have hbase : ({ q with funcdef := [] } : GithubPost) =
      ({ p with funcdef := [] } : GithubPost) := by
    rw [hq]
  rw [hbase] at hLq
  have hf'len : q.funcdef.length = p.funcdef.length - e := by
    rw [hq]
    simp [List.length_take]
    omega
  omega

/-- C3 (amended). Both `into_mastodon` and `into_bsky` of `message.py` budget
with the Mastodon-counted length `masto_get_message_length`. When that length
exceeds the platform limit (500 for Mastodon, 300 for Bluesky) and the excess
leaves room for the ellipsis (`excess + 3 ≤ len(funcdef)`), trimming removes
exactly the excess: the returned message is the render of the abbreviated
post, whose Mastodon-counted length is exactly the platform limit. (The built
Bluesky text itself is generally shorter than 300, because the budget is
computed with the Mastodon metric — see the counterexample.) -/
theorem c3_trimming_reaches_masto_limit :
    (∀ (p q : GhidraPost) (f : Str),
      p.funcdef = some f →
      MASTO_MAX_TEXT_LENGTH < masto_get_message_length ghidra_message_template p →
      masto_get_message_length ghidra_message_template p - MASTO_MAX_TEXT_LENGTH + 3 ≤
        f.length →
      p.abbreviated
          (masto_get_message_length ghidra_message_template p - MASTO_MAX_TEXT_LENGTH) =
        .ok q →
      p.into_mastodon = .ok (masto_render ghidra_message_template q) ∧
        masto_get_message_length ghidra_message_template q = MASTO_MAX_TEXT_LENGTH) ∧
    (∀ (p q : GhidraPost) (f : Str),
      p.funcdef = some f →
      BSKY_MAX_TEXT_LENGTH < masto_get_message_length ghidra_message_template p →
      masto_get_message_length ghidra_message_template p - BSKY_MAX_TEXT_LENGTH + 3 ≤
        f.length →
      p.abbreviated
          (masto_get_message_length ghidra_message_template p - BSKY_MAX_TEXT_LENGTH) =
        .ok q →
      p.into_bsky = .ok (bsky_render ghidra_message_template q) ∧
        masto_get_message_length ghidra_message_template q = BSKY_MAX_TEXT_LENGTH) ∧
    (∀ (p q : GithubPost),
      MASTO_MAX_TEXT_LENGTH < masto_get_message_length github_message_template p →
      masto_get_message_length github_message_template p - MASTO_MAX_TEXT_LENGTH + 3 ≤
        p.funcdef.length →
      p.abbreviated
          (masto_get_message_length github_message_template p - MASTO_MAX_TEXT_LENGTH) =
        .ok q →
      p.into_mastodon = .ok (masto_render github_message_template q) ∧
        masto_get_message_length github_message_template q = MASTO_MAX_TEXT_LENGTH) ∧
    (∀ (p q : GithubPost),
      BSKY_MAX_TEXT_LENGTH < masto_get_message_length github_message_template p →
      masto_get_message_length github_message_template p - BSKY_MAX_TEXT_LENGTH + 3 ≤
        p.funcdef.length →
      p.abbreviated
          (masto_get_message_length github_message_template p - BSKY_MAX_TEXT_LENGTH) =
        .ok q →
      p.into_bsky = .ok (bsky_render github_message_template q) ∧
        masto_get_message_length github_message_template q = BSKY_MAX_TEXT_LENGTH) := by
  refine ⟨fun p q f hp hgt hfit habb => ⟨?_, ?_⟩,
          fun p q f hp hgt hfit habb => ⟨?_, ?_⟩,
          fun p q hgt hfit habb => ⟨?_, ?_⟩,
          fun p q hgt hfit habb => ⟨?_, ?_⟩⟩
  · unfold GhidraPost.into_mastodon
    rw [if_neg (by omega), habb]
    rfl
  · have := ghidra_abbreviated_metric p q f _ hp hfit habb
    omega
  · unfold GhidraPost.into_bsky
    rw [if_neg (by omega), habb]
    rfl
  · have := ghidra_abbreviated_metric p q f _ hp hfit habb
    omega
  · unfold GithubPost.into_mastodon
    rw [if_neg (by omega), habb]
    rfl
  · have := github_abbreviated_metric p q _ hfit habb
    omega
  · unfold GithubPost.into_bsky
    rw [if_neg (by omega), habb]
    rfl
  · have := github_abbreviated_metric p q _ hfit habb
    omega

/-- Witness for C3 (amended) at concrete trimmed posts: a `GhidraPost` and a
`GithubPost` whose Mastodon-counted lengths are 591 and 676, trimmed for both
platforms. -/
theorem c3_trimming_reaches_masto_limit_witness :
    (ghidra_long_funcdef_post.into_mastodon =
      .ok (masto_render ghidra_message_template
        { ghidra_long_funcdef_post with
            funcdef := some (List.replicate 456 'a' ++ "...".data) }) ∧
     masto_get_message_length ghidra_message_template
        { ghidra_long_funcdef_post with
            funcdef := some (List.replicate 456 'a' ++ "...".data) } =
      MASTO_MAX_TEXT_LENGTH) ∧
    (ghidra_long_funcdef_post.into_bsky =
      .ok (bsky_render ghidra_message_template
        { ghidra_long_funcdef_post with
            funcdef := some (List.replicate 256 'a' ++ "...".data) }) ∧
     masto_get_message_length ghidra_message_template
        { ghidra_long_funcdef_post with
            funcdef := some (List.replicate 256 'a' ++ "...".data) } =
      BSKY_MAX_TEXT_LENGTH) ∧
    (github_long_funcdef_post.into_mastodon =
      .ok (masto_render github_message_template
        { github_long_funcdef_post with
            funcdef := List.replicate 421 'g' ++ "...".data }) ∧
     masto_get_message_length github_message_template
        { github_long_funcdef_post with
            funcdef := List.replicate 421 'g' ++ "...".data } =
      MASTO_MAX_TEXT_LENGTH) ∧
    (github_long_funcdef_post.into_bsky =
      .ok (bsky_render github_message_template
        { github_long_funcdef_post with
            funcdef := List.replicate 221 'g' ++ "...".data }) ∧
     masto_get_message_length github_message_template
        { github_long_funcdef_post with
            funcdef := List.replicate 221 'g' ++ "...".data } =
      BSKY_MAX_TEXT_LENGTH) :=
  ⟨c3_trimming_reaches_masto_limit.1 ghidra_long_funcdef_post _ (List.replicate 550 'a')
      rfl (by decide) (by decide) rfl,
   c3_trimming_reaches_masto_limit.2.1 ghidra_long_funcdef_post _ (List.replicate 550 'a')
      rfl (by decide) (by decide) rfl,
   c3_trimming_reaches_masto_limit.2.2.1 github_long_funcdef_post _
      (by decide) (by decide) rfl,
   c3_trimming_reaches_masto_limit.2.2.2 github_long_funcdef_post _
      (by decide) (by decide) rfl⟩

/-- C3 is false as stated: `ghidra_bsky_overtrim_post`'s untrimmed Bluesky
text has 344 characters (over the 300 limit), `into_bsky` trims and returns,
yet the returned text has 273 characters, not 300 (the budget was computed
with the Mastodon metric); and `ghidra_masto_edge_post`'s trimmed Mastodon
message (URL-free, so Mastodon-counted length equals plain length) has 503
characters, not 500. -/
theorem c3_trim_not_exact_counterexample :
    (bsky_render ghidra_message_template ghidra_bsky_overtrim_post).build_text.length =
      344 ∧
    (ghidra_bsky_overtrim_post.into_bsky).toOption.map
      (fun b => b.build_text.length) = some 273 ∧
    (ghidra_masto_edge_post.into_mastodon).toOption.map
      (fun s => s.length) = some 503 := by
  refine ⟨by decide, by decide, by decide⟩

/-- C1 is violated by the code. `cfgbot.py`'s `GhidraPost.into_mastodon` — the
method `main` actually posts with — performs no length check at all: on
`ghidra_long_funcdef_post` it returns a 590-character message (URL-free, so
its Mastodon-counted length is its plain length) without raising. And even
`message.py`'s `into_mastodon` returns a 503-character message on
`ghidra_masto_edge_post`, because `abbreviated` appends `"..."` after cutting
only `excess + 3` characters from an already-too-short `funcdef`. -/
theorem c1_masto_message_exceeds_limit :
    (CfgbotPy.GhidraPost_into_mastodon ghidra_long_funcdef_post).length = 590 ∧
    MASTO_MAX_TEXT_LENGTH < 590 ∧
    (ghidra_masto_edge_post.into_mastodon).toOption.map (fun s => s.length) =
      some 503 := by
  refine ⟨by decide, by decide, by decide⟩

/-- C2 is violated by the code. `cfgbot.py`'s `GithubPost.into_bsky` returns a
303-character Bluesky text on `github_bsky_edge_post` (excess 3 = `funcdef`
length, so the `funcdef` becomes `"..."` of the same length), and
`message.py`'s `GhidraPost.into_bsky` returns a 302-character text on
`ghidra_bsky_edge_post` — both beyond the 300-character limit, without
raising. -/
theorem c2_bsky_message_exceeds_limit :
    (CfgbotPy.GithubPost_into_bsky github_bsky_edge_post).toOption.map
      (fun b => b.build_text.length) = some 303 ∧
    (ghidra_bsky_edge_post.into_bsky).toOption.map
      (fun b => b.build_text.length) = some 302 ∧
    BSKY_MAX_TEXT_LENGTH < 302 := by
  refine ⟨by decide, by decide, by decide⟩

/-- C9. `masto_get_message_length` never looks at the URLs of the post's
links: link parts are counted as text length plus the fixed
`MASTODON_URL_LENGTH + 1`, and `masto_link_list_length` substitutes a
23-character placeholder for every URL. Two posts differing only in the `url`
fields of their `Link` values therefore get the same Mastodon length, for both
message templates of the program. -/
theorem c9_masto_length_url_independent :
    (∀ p q : GhidraPost, p.project = q.project → p.version = q.version →
      p.filename = q.filename → p.address = q.address → p.funcdef = q.funcdef →
      p.svgs.map Link.text = q.svgs.map Link.text →
      masto_get_message_length ghidra_message_template p =
        masto_get_message_length ghidra_message_template q) ∧
    (∀ p q : GithubPost, p.project.text = q.project.text → p.code.text = q.code.text →
      p.funcdef = q.funcdef → p.svgs.map Link.text = q.svgs.map Link.text →
      masto_get_message_length github_message_template p =
        masto_get_message_length github_message_template q) := by
  constructor
  · intro p q h1 h2 h3 h4 h5 h6
    obtain ⟨pp, pv, pf, pa, pd, ps⟩ := p
    obtain ⟨qp, qv, qf, qa, qd, qs⟩ := q
    simp only at h1 h2 h3 h4 h5 h6
    subst h1
    subst h2
    subst h3
    subst h4
    subst h5
    have hl := masto_link_list_length_eq_of_texts _ _ h6
    unfold masto_get_message_length ghidra_message_template
    rw [foldl_add_length, foldl_add_length]
    simp [masto_part_length, hl]
  · intro p q h1 h2 h3 h4
    obtain ⟨⟨ppt, ppu⟩, ⟨pct, pcu⟩, pd, ps⟩ := p
    obtain ⟨⟨qpt, qpu⟩, ⟨qct, qcu⟩, qd, qs⟩ := q
    simp only at h1 h2 h3 h4
    subst h1
    subst h2
    subst h3
    have hl := masto_link_list_length_eq_of_texts _ _ h4
    unfold masto_get_message_length github_message_template
    rw [foldl_add_length, foldl_add_length]
    simp [masto_part_length, hl]

/-- C8. `message.py`'s `into_bsky`/`into_mastodon` either return a message or
raise `ValueError` (modelled as `Except.error`; the functions are pure, so on
raising no message is produced and the post is unchanged), and they raise
exactly when the computed message length exceeds the platform limit and either
`funcdef` is `None` or the excess over the limit is greater than the length of
`funcdef` (`GithubPost.funcdef` is a plain `str`, so only the excess test
applies there). -/
theorem c8_value_error_iff_untrimmable :
    (∀ p : GhidraPost,
      (is_error p.into_mastodon = true ↔
        (MASTO_MAX_TEXT_LENGTH < masto_get_message_length ghidra_message_template p ∧
          (p.funcdef = none ∨ ∃ f, p.funcdef = some f ∧
            f.length <
              masto_get_message_length ghidra_message_template p - MASTO_MAX_TEXT_LENGTH)))) ∧
    (∀ p : GhidraPost,
      (is_error p.into_bsky = true ↔
        (BSKY_MAX_TEXT_LENGTH < masto_get_message_length ghidra_message_template p ∧
          (p.funcdef = none ∨ ∃ f, p.funcdef = some f ∧
            f.length <
              masto_get_message_length ghidra_message_template p - BSKY_MAX_TEXT_LENGTH)))) ∧
    (∀ p : GithubPost,
      (is_error p.into_mastodon = true ↔
        (MASTO_MAX_TEXT_LENGTH < masto_get_message_length github_message_template p ∧
          p.funcdef.length <
            masto_get_message_length github_message_template p - MASTO_MAX_TEXT_LENGTH))) ∧
    (∀ p : GithubPost,
      (is_error p.into_bsky = true ↔
        (BSKY_MAX_TEXT_LENGTH < masto_get_message_length github_message_template p ∧
          p.funcdef.length <
            masto_get_message_length github_message_template p - BSKY_MAX_TEXT_LENGTH))) := by
  refine ⟨fun p => ?_, fun p => ?_, fun p => ?_, fun p => ?_⟩
  · simp only [GhidraPost.into_mastodon, GhidraPost.abbreviated]
    split
    · rename_i hle
      simp only [is_error]
      exact ⟨fun h => absurd h (by simp), fun h => absurd h.1 (by omega)⟩
    · rename_i hgt
      cases hd : p.funcdef with
      | none =>
        simp [is_error, Except.map]
        omega
      | some f =>
        by_cases hlen :
            f.length < masto_get_message_length ghidra_message_template p - MASTO_MAX_TEXT_LENGTH
        · simp [is_error, Except.map, hlen]
          omega
        · simp [is_error, Except.map, hlen]
  · simp only [GhidraPost.into_bsky, GhidraPost.abbreviated]
    split
    · rename_i hle
      simp only [is_error]
      exact ⟨fun h => absurd h (by simp), fun h => absurd h.1 (by omega)⟩
    · rename_i hgt
      cases hd : p.funcdef with
      | none =>
        simp [is_error, Except.map]
        omega
      | some f =>
        by_cases hlen :
            f.length < masto_get_message_length ghidra_message_template p - BSKY_MAX_TEXT_LENGTH
        · simp [is_error, Except.map, hlen]
          omega
        · simp [is_error, Except.map, hlen]
  · simp only [GithubPost.into_mastodon, GithubPost.abbreviated]
    split
    · rename_i hle
      simp only [is_error]
      exact ⟨fun h => absurd h (by simp), fun h => absurd h.1 (by omega)⟩
    · rename_i hgt
      by_cases hlen :
          p.funcdef.length <
            masto_get_message_length github_message_template p - MASTO_MAX_TEXT_LENGTH
      · simp [is_error, Except.map, hlen]
        omega
      · simp [is_error, Except.map, hlen]
  · simp only [GithubPost.into_bsky, GithubPost.abbreviated]
    split
    · rename_i hle
      simp only [is_error]
      exact ⟨fun h => absurd h (by simp), fun h => absurd h.1 (by omega)⟩
    · rename_i hgt
      by_cases hlen :
          p.funcdef.length <
            masto_get_message_length github_message_template p - BSKY_MAX_TEXT_LENGTH
      · simp [is_error, Except.map, hlen]
        omega
      · simp [is_error, Except.map, hlen]

/-- C4. For every message template and every post, `bsky_get_message_length`
returns exactly the length of the text that `bsky_render` builds: the Bluesky
length calculator agrees with the Bluesky renderer. -/
theorem c4_bsky_length_agrees_with_render {P : Type}
    (template : P → List MessagePart) (post : P) :
    bsky_get_message_length template post =
      (bsky_render template post).build_text.length := by
  unfold bsky_get_message_length bsky_render TextBuilder.build_text
  rw [foldl_add_length, foldl_bsky_render_part_length]
  simp

/-- C5. The posting phase of `main` always attempts both platforms, Bluesky
then Mastodon — a failure of the Bluesky attempt is caught (and logged) and
does not prevent the Mastodon attempt — and `main` raises `RuntimeError`
exactly when at least one of the two attempts raised. -/
theorem c5_main_posts_to_both_platforms {E : Type}
    (post_to_bluesky_outcome post_to_mastodon_outcome : Except E Unit) :
    (main_posting_phase post_to_bluesky_outcome post_to_mastodon_outcome).1 =
      [Platform.bluesky, Platform.mastodon] ∧
    (is_error (main_posting_phase post_to_bluesky_outcome post_to_mastodon_outcome).2 = true ↔
      (is_error post_to_bluesky_outcome = true ∨ is_error post_to_mastodon_outcome = true)) := by
  cases post_to_bluesky_outcome <;> cases post_to_mastodon_outcome <;>
    simp [main_posting_phase, is_error]

/-- C6. `into_bsky` and `into_mastodon` of `message.py` are deterministic
functions of the post's field values: two posts with equal fields yield
identical results, with no dependence on anything outside the post. -/
theorem c6_into_functions_deterministic :
    (∀ p q : GhidraPost,
      p.project = q.project → p.version = q.version → p.filename = q.filename →
      p.address = q.address → p.funcdef = q.funcdef → p.svgs = q.svgs →
      p.into_bsky = q.into_bsky ∧ p.into_mastodon = q.into_mastodon) ∧
    (∀ p q : GithubPost,
      p.project = q.project → p.code = q.code → p.funcdef = q.funcdef →
      p.svgs = q.svgs →
      p.into_bsky = q.into_bsky ∧ p.into_mastodon = q.into_mastodon) := by
  constructor
  · intro p q h1 h2 h3 h4 h5 h6
    cases p
    cases q
    simp_all
  · intro p q h1 h2 h3 h4
    cases p
    cases q
    simp_all

/-- Witness for C6 at a concrete pair of posts with equal fields. -/
theorem c6_into_functions_deterministic_witness :
    ghidra_bsky_overtrim_post.into_bsky = ghidra_bsky_overtrim_post.into_bsky ∧
    ghidra_bsky_overtrim_post.into_mastodon = ghidra_bsky_overtrim_post.into_mastodon :=
  c6_into_functions_deterministic.1 ghidra_bsky_overtrim_post ghidra_bsky_overtrim_post
    rfl rfl rfl rfl rfl rfl

/-- Witness for C9 at two concrete posts that differ only in their link URLs. -/
theorem c9_masto_length_url_independent_witness :
    masto_get_message_length ghidra_message_template url_variant_ghidra_post_a =
      masto_get_message_length ghidra_message_template url_variant_ghidra_post_b :=
  c9_masto_length_url_independent.1 url_variant_ghidra_post_a url_variant_ghidra_post_b
    rfl rfl rfl rfl rfl rfl

/-- C7. Both post generators render exactly one image per color scheme, in
the order the schemes are given (each image converted from the SVG the
external renderer produced for that scheme, with that scheme's alt text), and
the generated post's `svgs` field holds exactly one link per scheme, in the
same order, whose text is the scheme name. -/
theorem c7_one_image_and_link_per_scheme :
    (∀ (o : RenderOracles) (choice : List GhidraFunction → GhidraFunction)
       (index_locator : IndexLocator) (index : GhidraIndex) (colors_schemes : List Str),
      colors_schemes ≠ [] →
      (generate_ghidra_post o choice index_locator index colors_schemes).2 =
        colors_schemes.map (fun colors =>
          Image.from_svg o
            (o.render_graph_svg
              (ghidra_graph_path index_locator (ghidra_chosen_function choice index))
              colors)
            (cfg_alt colors)) ∧
      (generate_ghidra_post o choice index_locator index colors_schemes).2.length =
        colors_schemes.length ∧
      (generate_ghidra_post o choice index_locator index colors_schemes).1.svgs.map
        Link.text = colors_schemes ∧
      (generate_ghidra_post o choice index_locator index colors_schemes).1.svgs.length =
        colors_schemes.length) ∧
    (∀ (o : RenderOracles) (choice : List GithubFunction → GithubFunction)
       (fetch : GithubFunction → GithubIndex → Str) (tempdir : Str)
       (index : GithubIndex) (colors_schemes : List Str),
      colors_schemes ≠ [] →
      (generate_github_post o choice fetch tempdir index colors_schemes).2 =
        colors_schemes.map (fun colors =>
          Image.from_svg o
            (o.render_function_svg
              (github_codefile tempdir (github_chosen_function choice index))
              colors (github_chosen_function choice index))
            (cfg_alt colors)) ∧
      (generate_github_post o choice fetch tempdir index colors_schemes).2.length =
        colors_schemes.length ∧
      (generate_github_post o choice fetch tempdir index colors_schemes).1.svgs.map
        Link.text = colors_schemes ∧
      (generate_github_post o choice fetch tempdir index colors_schemes).1.svgs.length =
        colors_schemes.length) := by
  constructor
  · intro o choice index_locator index colors_schemes _
    refine ⟨rfl, ?_, ?_, ?_⟩ <;>
      simp [generate_ghidra_post, ghidra_chosen_function, ghidra_graph_path,
        List.map_map, Function.comp_def]
  · intro o choice fetch tempdir index colors_schemes _
    refine ⟨rfl, ?_, ?_, ?_⟩ <;>
      simp [generate_github_post, github_chosen_function, github_codefile,
        List.map_map, Function.comp_def]

/-- Witness for C7 with trivial oracles, the one-function sample indices and
the program's scheme list `COLOR_SCHEMES = ["dark", "light"]`. -/
theorem c7_one_image_and_link_per_scheme_witness :
    ((generate_ghidra_post trivial_oracles head_ghidra_choice sample_locator
        sample_ghidra_index COLOR_SCHEMES).2 =
      COLOR_SCHEMES.map (fun colors =>
        Image.from_svg trivial_oracles
          (trivial_oracles.render_graph_svg
            (ghidra_graph_path sample_locator
              (ghidra_chosen_function head_ghidra_choice sample_ghidra_index))
            colors)
          (cfg_alt colors)) ∧
     (generate_ghidra_post trivial_oracles head_ghidra_choice sample_locator
        sample_ghidra_index COLOR_SCHEMES).2.length = COLOR_SCHEMES.length ∧
     (generate_ghidra_post trivial_oracles head_ghidra_choice sample_locator
        sample_ghidra_index COLOR_SCHEMES).1.svgs.map Link.text = COLOR_SCHEMES ∧
     (generate_ghidra_post trivial_oracles head_ghidra_choice sample_locator
        sample_ghidra_index COLOR_SCHEMES).1.svgs.length = COLOR_SCHEMES.length) ∧
    ((generate_github_post trivial_oracles head_github_choice sample_fetch
        "tmp".data sample_github_index COLOR_SCHEMES).2 =
      COLOR_SCHEMES.map (fun colors =>
        Image.from_svg trivial_oracles
          (trivial_oracles.render_function_svg
            (github_codefile "tmp".data
              (github_chosen_function head_github_choice sample_github_index))
            colors (github_chosen_function head_github_choice sample_github_index))
          (cfg_alt colors)) ∧
     (generate_github_post trivial_oracles head_github_choice sample_fetch
        "tmp".data sample_github_index COLOR_SCHEMES).2.length = COLOR_SCHEMES.length ∧
     (generate_github_post trivial_oracles head_github_choice sample_fetch
        "tmp".data sample_github_index COLOR_SCHEMES).1.svgs.map Link.text =
       COLOR_SCHEMES ∧
     (generate_github_post trivial_oracles head_github_choice sample_fetch
        "tmp".data sample_github_index COLOR_SCHEMES).1.svgs.length =
       COLOR_SCHEMES.length) :=
  ⟨c7_one_image_and_link_per_scheme.1 trivial_oracles head_ghidra_choice sample_locator
      sample_ghidra_index COLOR_SCHEMES (by decide),
   c7_one_image_and_link_per_scheme.2 trivial_oracles head_github_choice sample_fetch
      "tmp".data sample_github_index COLOR_SCHEMES (by decide)⟩

end Cfgbot
